import Mathlib

/-!
# battery_plus_linux: the Linux battery plugin

A shallow embedding of `packages/battery_plus_linux/linux/battery_plus_linux_plugin.cc`.

* C pointers to `UPowerDevice` proxy objects are indices into a heap of proxies,
  `nullptr` is `none`.
* `guint` / `guint32` values are natural numbers; the plugin never does arithmetic
  on them, it only compares them with enum constants.
* A function whose C++ behaviour can be undefined (null dereference, a
  floating-point value that does not fit the integer it is converted to) returns
  `Option`, with `none` for "no defined result".
* Calls into the embedder that are visible from outside (events sent on the event
  channel, warnings, property reads) are appended to a trace.
-/

namespace BatteryPlus

/-! ## Constants -/

def kBatteryLevelMethod : String := "getBatteryLevel"
def kDbusError : String := "D-BUS Error"

/-! ## `enum UPowerState` -/

def Unknown : Nat := 0
def Charging : Nat := 1
def Discharging : Nat := 2
def Empty : Nat := 3
def FullyCharged : Nat := 4
def PendingCharge : Nat := 5
def PendingDischarge : Nat := 6

/-- `upower_state_str`: the `switch` over the state code. -/
def upower_state_str (state : Nat) : String :=
  match state with
  | 1 => "charging"
  | 2 => "discharging"
  | _ => "full"

/-! ## Values exchanged with the embedder -/

/-- A C `double`: a finite value (every finite double is a rational number), an
infinity, or a NaN. -/
inductive gdouble where
  | finite (q : ℚ)
  | inf (negative : Bool)
  | nan
  deriving DecidableEq

/-- Nearest integer to `q`, halfway cases away from zero. -/
def round_half_away (q : ℚ) : ℤ := if 0 ≤ q then ⌊q + 1 / 2⌋ else ⌈q - 1 / 2⌉

/-- `std::round` on doubles: nearest integral value, halfway cases away from zero;
infinities and NaN are returned unchanged. -/
def std_round : gdouble → gdouble
  | .finite q => .finite ((round_half_away q : ℤ) : ℚ)
  | d => d

/-- Implicit conversion `double -> int64_t` at the call of `fl_value_new_int`: the
value is truncated toward zero; the behaviour is undefined (`none`) when the
truncated value is not representable in 64 signed bits. -/
def double_to_int64 : gdouble → Option Int
  | .finite q =>
    let t : Int := if 0 ≤ q then ⌊q⌋ else ⌈q⌉
    if -(2 ^ 63 : Int) ≤ t ∧ t < 2 ^ 63 then some t else none
  | _ => none

/-- The `FlValue`s the plugin builds. -/
inductive FlValue where
  | int (v : Int)
  | string (s : String)
  deriving DecidableEq

/-- An `FlMethodResponse`; the error response is built with `details = nullptr`. -/
inductive FlMethodResponse where
  | success (result : FlValue)
  | error (code : String) (message : String)
  | not_implemented
  deriving DecidableEq

/-- A `GVariant` as found as a value of an `a{sv}` dictionary. -/
inductive GVariant where
  | boolean (b : Bool)
  | uint32 (n : Nat)
  | int64 (i : Int)
  | double (d : gdouble)
  | string (s : String)
  deriving DecidableEq

inductive GVariantType where
  | boolean | uint32 | int64 | double | string
  deriving DecidableEq

def GVariant.type : GVariant → GVariantType
  | .boolean _ => .boolean
  | .uint32 _ => .uint32
  | .int64 _ => .int64
  | .double _ => .double
  | .string _ => .string

/-- GLib `g_variant_lookup_value`: the value of the first entry of the dictionary
whose key is `key`, provided its type is `expected_type`; `NULL` otherwise. -/
def g_variant_lookup_value (dictionary : List (String × GVariant)) (key : String)
    (expected_type : GVariantType) : Option GVariant :=
  match dictionary.find? (fun entry => entry.1 == key) with
  | none => none
  | some entry => if entry.2.type = expected_type then some entry.2 else none

/-- GLib `g_variant_get_uint32`; defined on `uint32` variants only. -/
def g_variant_get_uint32 : GVariant → Option Nat
  | .uint32 n => some n
  | _ => none

/-! ## The world the plugin runs in -/

/-- A `UPowerDevice` D-Bus proxy object. -/
structure Proxy where
  /-- GObject reference count; the object is finalized when it reaches 0. -/
  ref_count : Nat
  /-- Number of `properties_changed_cb` handlers connected to "g-properties-changed". -/
  handlers : Nat
  /-- Value of the remote `Percentage` property. -/
  percentage : gdouble
  /-- Value of the remote `State` property. -/
  state : Nat
  deriving DecidableEq

/-- What leaves the plugin towards the embedder or the log. -/
inductive Effect where
  /-- `fl_event_channel_send` called with this string message. -/
  | event (message : String)
  /-- `g_warning` with this text. -/
  | warning (text : String)
  /-- `upower_device_get_percentage` called on this proxy. -/
  | read_percentage (device : Nat)
  /-- `upower_device_get_state` called on this pointer. -/
  | read_state (device : Option Nat)
  deriving DecidableEq

/-- The plugin instance (`_BatteryPlusLinuxPlugin`) together with the heap of proxy
objects and the trace of effects, oldest first. -/
structure World where
  heap : List Proxy
  /-- The field `self->state_device`. -/
  state_device : Option Nat
  trace : List Effect
  deriving DecidableEq

/-- The properties a successfully created proxy reads from the bus. -/
structure Remote where
  percentage : gdouble
  state : Nat
  deriving DecidableEq

/-- The answers of the plugin's collaborators during one request. -/
structure Host where
  /-- Outcome of `upower_device_proxy_new_for_bus_sync`: the remote device, or the
  message of the `GError`. -/
  proxy_new : Except String Remote
  /-- Message of the `GError` of `fl_event_channel_send` when it fails. -/
  send_error : Option String
  /-- What the generated getter `upower_device_get_state` (declared in
  `upower_device.h`, which is generated at build time) does when it is called on
  `nullptr`: `none` when the call does not return (null dereference), `some v`
  when a guard in the getter makes it return `v`. -/
  get_state_null : Option Nat

/-- A plugin right after `g_object_new`: `state_device = nullptr`, and
`battery_plus_linux_plugin_init` does nothing. -/
def World.fresh : World := { heap := [], state_device := none, trace := [] }

def World.log (w : World) (e : Effect) : World := { w with trace := w.trace ++ [e] }

/-- The messages sent on the event channel so far, oldest first. -/
def World.events (w : World) : List String :=
  w.trace.filterMap (fun e => match e with | .event m => some m | _ => none)

/-- Number of live proxies that have a change callback connected. -/
def World.live_callbacks (w : World) : Nat :=
  (w.heap.filter (fun p => decide (0 < p.ref_count) && decide (0 < p.handlers))).length

/-- GObject `g_object_unref`: drops one reference; at zero the object is finalized,
which disconnects its signal handlers. -/
def g_object_unref (w : World) (object : Nat) : World :=
  let unref : Proxy → Proxy := fun p =>
    if p.ref_count ≤ 1 then { p with ref_count := 0, handlers := 0 }
    else { p with ref_count := p.ref_count - 1 }
  { w with heap := w.heap.modify unref object }

/-- GObject `g_clear_object(&self->state_device)`: unref the object if the pointer
is not `NULL`, and set the pointer to `NULL`. -/
def g_clear_object_state_device (w : World) : World :=
  match w.state_device with
  | none => w
  | some d => { g_object_unref w d with state_device := none }

/-- GObject `g_signal_connect(device, "g-properties-changed", properties_changed_cb, ...)`. -/
def g_signal_connect (w : World) (device : Nat) : World :=
  { w with heap := w.heap.modify (fun p => { p with handlers := p.handlers + 1 }) device }

/-- Generated getter `upower_device_get_percentage`; the plugin only calls it on a
proxy it has just created. -/
def upower_device_get_percentage (w : World) (device : Option Nat) : Option gdouble :=
  match device with
  | none => none
  | some d => (w.heap.get? d).map (fun p => p.percentage)

/-- Generated getter `upower_device_get_state`. -/
def upower_device_get_state (host : Host) (w : World) (device : Option Nat) : Option Nat :=
  match device with
  | none => host.get_state_null
  | some d => (w.heap.get? d).map (fun p => p.state)

/-! ## The plugin -/

/-- `upower_device_new`: creates the proxy; when the constructor reports an error
(it then returns `NULL`, as GLib constructors do), `*response` is set to an error
response tagged `kDbusError`. Returns the device pointer and the new value of
`*response`. -/
def upower_device_new (w : World) (host : Host) (response : Option FlMethodResponse) :
    World × Option Nat × Option FlMethodResponse :=
  match host.proxy_new with
  | .ok r =>
    ({ w with heap := w.heap ++
        [{ ref_count := 1, handlers := 0, percentage := r.percentage, state := r.state }] },
      some w.heap.length, response)
  | .error message => (w, none, some (.error kDbusError message))

/-- `battery_plus_linux_plugin_handle_method_call`; the result is the response
passed to `fl_method_call_respond`. -/
def battery_plus_linux_plugin_handle_method_call (w : World) (host : Host)
    (method_name : String) : Option (World × FlMethodResponse) :=
  if method_name = kBatteryLevelMethod then
    match upower_device_new w host none with
    | (w1, device, none) => do
      let level ← upower_device_get_percentage w1 device
      let d ← device
      let w2 := w1.log (.read_percentage d)
      let result ← double_to_int64 (std_round level)
      let w3 := g_object_unref w2 d
      some (w3, .success (.int result))
    | (w1, _, some response) => some (w1, response)
  else
    some (w, .not_implemented)

/-- `send_battery_state_event`. -/
def send_battery_state_event (w : World) (host : Host) (state : Nat) : World :=
  let message := upower_state_str state
  let w1 := w.log (.event message)
  match host.send_error with
  | none => w1
  | some text => w1.log (.warning ("Failed to send event: " ++ text))

/-- `properties_changed_cb`, the handler of "g-properties-changed". -/
def properties_changed_cb (w : World) (host : Host)
    (changed_properties : List (String × GVariant)) : Option World :=
  match g_variant_lookup_value changed_properties "State" .uint32 with
  | some value => do
    let state ← g_variant_get_uint32 value
    some (send_battery_state_event w host state)
  | none => some w

/-- `battery_plus_linux_plugin_listen_events`; the result is the returned
`FlMethodErrorResponse*`. -/
def battery_plus_linux_plugin_listen_events (w : World) (host : Host) :
    Option (World × Option FlMethodResponse) :=
  match upower_device_new w host none with
  | (w1, device, response) => do
    let w2 : World := { w1 with state_device := device }
    let w3 := match w2.state_device with
      | some d => g_signal_connect w2 d
      | none => w2
    let state ← upower_device_get_state host w3 w3.state_device
    let w4 := w3.log (.read_state w3.state_device)
    some (send_battery_state_event w4 host state, response)

/-- `battery_plus_linux_plugin_cancel_events`. -/
def battery_plus_linux_plugin_cancel_events (w : World) : World × Option FlMethodResponse :=
  (g_clear_object_state_device w, none)

/-- GObject's base-class `dispose`: it knows nothing of the fields the subclass
added, so it leaves them and the proxies alone. -/
def g_object_parent_dispose (w : World) : World := w

/-- `battery_plus_linux_plugin_dispose`: only chains up to the parent class. -/
def battery_plus_linux_plugin_dispose (w : World) : World :=
  g_object_parent_dispose w

/-! ## Sequences of requests -/

inductive Request where
  | subscribe (host : Host)
  | cancel
  | method_call (host : Host) (method_name : String)

def step (w : World) : Request → Option World
  | .subscribe host => (battery_plus_linux_plugin_listen_events w host).map (fun r => r.1)
  | .cancel => some (battery_plus_linux_plugin_cancel_events w).1
  | .method_call host name =>
    (battery_plus_linux_plugin_handle_method_call w host name).map (fun r => r.1)

def run (w : World) : List Request → Option World
  | [] => some w
  | r :: rs => (step w r).bind (fun w1 => run w1 rs)

/-- A host on which the bus is healthy: the battery is charging at 76.4 percent. -/
def healthy_host : Host :=
  { proxy_new := .ok { percentage := .finite (382 / 5), state := 1 },
    send_error := none, get_state_null := some 0 }

/-- A host on which the system bus cannot be reached; the generated getter guards
against `nullptr` and returns 0. -/
def failing_host : Host :=
  { proxy_new := .error "Could not connect: No such file or directory",
    send_error := none, get_state_null := some 0 }

/-- As `failing_host`, with a getter that dereferences `nullptr`. -/
def failing_host_unguarded : Host :=
  { proxy_new := .error "Could not connect: No such file or directory",
    send_error := none, get_state_null := none }

/-! ## Auxiliary facts -/

theorem std_round_finite (q : ℚ) :
    std_round (.finite q) = .finite ((round_half_away q : ℤ) : ℚ) := rfl

theorem modify_append_length {α : Type} (f : α → α) (l : List α) (a : α) :
    (l ++ [a]).modify f l.length = l ++ [f a] := by
  induction l with
  | nil => rfl
  | cons x xs ih => simp [List.modify_succ_cons, ih]

theorem get?_append_length {α : Type} (l : List α) (a : α) :
    (l ++ [a]).get? l.length = some a := by
  induction l with
  | nil => rfl
  | cons x xs ih => simp

theorem abs_round_half_away_sub_le (q : ℚ) : |((round_half_away q : ℤ) : ℚ) - q| ≤ 1 / 2 := by
  unfold round_half_away
  rw [abs_le]
  split
  · have h1 := Int.floor_le (q + 1 / 2)
    have h2 := Int.lt_floor_add_one (q + 1 / 2)
    constructor <;> linarith
  · have h1 := Int.le_ceil (q - 1 / 2)
    have h2 := Int.ceil_lt_add_one (q - 1 / 2)
    constructor <;> linarith

theorem round_half_away_fits (q : ℚ) (hlo : -(2 ^ 63 : ℚ) - 1 / 2 < q)
    (hhi : q < 2 ^ 63 - 1 / 2) :
    -(2 ^ 63 : ℤ) ≤ round_half_away q ∧ round_half_away q < 2 ^ 63 := by
  unfold round_half_away
  split
  · rename_i h0
    constructor
    · have : (0 : ℤ) ≤ ⌊q + 1 / 2⌋ := Int.floor_nonneg.mpr (by linarith)
      linarith
    · rw [Int.floor_lt]
      push_cast
      linarith
  · rename_i h0
    push_neg at h0
    constructor
    · have h : ((-(2 ^ 63 : ℤ) - 1 : ℤ) : ℚ) < q - 1 / 2 := by
        push_cast
        linarith
      have := Int.lt_ceil.mpr h
      omega
    · have : ⌈q - 1 / 2⌉ ≤ 0 := Int.ceil_le.mpr (by push_cast; linarith)
      linarith

theorem double_to_int64_intCast (z : ℤ) (h : -(2 ^ 63 : ℤ) ≤ z ∧ z < 2 ^ 63) :
    double_to_int64 (.finite (z : ℚ)) = some z := by
  unfold double_to_int64
  simp only [Int.floor_intCast, Int.ceil_intCast, ite_self]
  rw [if_pos h]

theorem events_log_event (w : World) (m : String) :
    (w.log (.event m)).events = w.events ++ [m] := by
  simp [World.log, World.events, List.filterMap_append]

theorem events_log_warning (w : World) (t : String) :
    (w.log (.warning t)).events = w.events := by
  simp [World.log, World.events, List.filterMap_append]

theorem events_log_read_state (w : World) (d : Option Nat) :
    (w.log (.read_state d)).events = w.events := by
  simp [World.log, World.events, List.filterMap_append]

theorem send_battery_state_event_events (w : World) (host : Host) (state : Nat) :
    (send_battery_state_event w host state).events = w.events ++ [upower_state_str state] := by
  unfold send_battery_state_event
  cases host.send_error <;> simp [events_log_event, events_log_warning]

theorem send_battery_state_event_heap (w : World) (host : Host) (state : Nat) :
    (send_battery_state_event w host state).heap = w.heap
    ∧ (send_battery_state_event w host state).state_device = w.state_device := by
  unfold send_battery_state_event
  cases host.send_error <;> simp [World.log]

theorem g_variant_lookup_value_of_lookup (dict : List (String × GVariant)) (key : String)
    (v : GVariant) (h : dict.lookup key = some v) :
    g_variant_lookup_value dict key v.type = some v := by
  unfold g_variant_lookup_value
  induction dict with
  | nil => simp at h
  | cons e es ih =>
    obtain ⟨k, x⟩ := e
    by_cases hk : k = key
    · subst hk
      simp only [List.lookup_cons, beq_self_eq_true, Option.some.injEq] at h
      subst h
      simp
    · have hk2 : (key == k) = false := by
        simp only [beq_eq_false_iff_ne, ne_eq]
        exact fun h2 => hk h2.symm
      have hk1 : (k == key) = false := by simpa using hk
      simp only [List.lookup_cons, hk2] at h
      simp only [List.find?_cons, hk1]
      exact ih h

theorem lookup_of_mem_of_nodup (dict : List (String × GVariant)) (key : String)
    (v : GVariant) (hn : (dict.map Prod.fst).Nodup) (hm : (key, v) ∈ dict) :
    dict.lookup key = some v := by
  induction dict with
  | nil => simp at hm
  | cons e es ih =>
    obtain ⟨k, x⟩ := e
    simp only [List.map_cons, List.nodup_cons, List.mem_map, Prod.exists, exists_and_right,
      exists_eq_right, not_exists] at hn
    rcases List.mem_cons.mp hm with h | h
    · simp only [Prod.mk.injEq] at h
      obtain ⟨h1, h2⟩ := h
      subst h1 h2
      simp [List.lookup_cons]
    · have hk : (key == k) = false := by
        simp only [beq_eq_false_iff_ne, ne_eq]
        intro h2
        subst h2
        exact hn.1 v h
      simp only [List.lookup_cons, hk]
      exact ih hn.2 h

theorem g_variant_lookup_value_mem (dict : List (String × GVariant)) (key : String)
    (t : GVariantType) (v : GVariant) (h : g_variant_lookup_value dict key t = some v) :
    (key, v) ∈ dict ∧ v.type = t := by
  unfold g_variant_lookup_value at h
  split at h
  · simp at h
  · rename_i e he
    split at h
    · rename_i ht
      simp only [Option.some.injEq] at h
      subst h
      have h1 := List.find?_some he
      have h2 := List.mem_of_find?_eq_some he
      simp only [beq_iff_eq] at h1
      subst h1
      exact ⟨h2, ht⟩
    · simp at h

/-! ## Theorems -/

/-- C1: for every state code `s` (all naturals, hence all unsigned 32-bit values),
`upower_state_str s` is "charging" when `s` is `Charging` (1), "discharging" when
`s` is `Discharging` (2) and "full" for every other value; the result is always one
of these three strings, and the five other named codes all give "full". -/
theorem C1_upower_state_str_total (s : Nat) :
    upower_state_str s =
      (if s = Charging then "charging" else if s = Discharging then "discharging" else "full")
    ∧ upower_state_str s ∈ ["charging", "discharging", "full"]
    ∧ upower_state_str Unknown = "full" ∧ upower_state_str Empty = "full"
    ∧ upower_state_str FullyCharged = "full" ∧ upower_state_str PendingCharge = "full"
    ∧ upower_state_str PendingDischarge = "full" := by
  refine ⟨?_, ?_, rfl, rfl, rfl, rfl, rfl⟩
  · unfold upower_state_str Charging Discharging
    rcases s with _ | _ | _ | n <;> simp
  · unfold upower_state_str
    rcases s with _ | _ | _ | n <;> simp

/-- C2: when the proxy is created and the device reports the finite percentage `q`,
with `-2^63 - 1/2 < q < 2^63 - 1/2` (the values whose rounding fits the 64-bit
integer an `FlValue` carries; every percentage between 0 and 100 is one),
`getBatteryLevel` responds with a success result carrying an integer `r` with
`|r - q| ≤ 1/2`, namely `q` rounded half away from zero; for `q = 76.4` it is 76. -/
theorem C2_getBatteryLevel_rounds_to_nearest (w : World) (host : Host) (q : ℚ) (st : Nat)
    (hconn : host.proxy_new = .ok { percentage := .finite q, state := st })
    (hlo : -(2 ^ 63 : ℚ) - 1 / 2 < q) (hhi : q < 2 ^ 63 - 1 / 2) :
    ∃ r : ℤ,
      battery_plus_linux_plugin_handle_method_call w host "getBatteryLevel"
        = some ({ heap := w.heap ++
                    [{ ref_count := 0, handlers := 0, percentage := .finite q, state := st }],
                  state_device := w.state_device,
                  trace := w.trace ++ [.read_percentage w.heap.length] },
                .success (.int r))
      ∧ r = round_half_away q
      ∧ |(r : ℚ) - q| ≤ 1 / 2
      ∧ (q = 382 / 5 → r = 76) := by
  refine ⟨round_half_away q, ?_, rfl, abs_round_half_away_sub_le q, ?_⟩
  · unfold battery_plus_linux_plugin_handle_method_call
    simp only [kBatteryLevelMethod, if_true, upower_device_new, hconn,
      upower_device_get_percentage, get?_append_length, Option.map_some']
    simp [std_round_finite, double_to_int64_intCast _ (round_half_away_fits q hlo hhi),
      g_object_unref, World.log, modify_append_length]
  · intro hq
    subst hq
    unfold round_half_away
    rw [if_pos (by norm_num), Int.floor_eq_iff]
    constructor <;> norm_num

/-- Witness of C2: a fresh plugin, a device charging at 76.4 percent. -/
theorem C2_getBatteryLevel_rounds_to_nearest_witness :
    ∃ r : ℤ,
      battery_plus_linux_plugin_handle_method_call World.fresh
          { proxy_new := .ok { percentage := .finite (382 / 5), state := 1 },
            send_error := none, get_state_null := none } "getBatteryLevel"
        = some ({ heap := [{ ref_count := 0, handlers := 0,
                             percentage := .finite (382 / 5), state := 1 }],
                  state_device := none,
                  trace := [.read_percentage 0] },
                .success (.int r))
      ∧ r = round_half_away (382 / 5)
      ∧ |(r : ℚ) - 382 / 5| ≤ 1 / 2
      ∧ ((382 / 5 : ℚ) = 382 / 5 → r = 76) :=
  C2_getBatteryLevel_rounds_to_nearest World.fresh
    { proxy_new := .ok { percentage := .finite (382 / 5), state := 1 },
      send_error := none, get_state_null := none } (382 / 5) 1 rfl
    (by norm_num) (by norm_num)

/-- C3: when creating the proxy fails with message `m`, `getBatteryLevel` responds
with the error result whose code is "D-BUS Error" and whose message is `m`; the
world is left as it was, so no percentage is read (the trace is unchanged), no proxy
is created and no success result is produced. -/
theorem C3_getBatteryLevel_connect_failure (w : World) (host : Host) (m : String)
    (hconn : host.proxy_new = .error m) :
    battery_plus_linux_plugin_handle_method_call w host "getBatteryLevel"
      = some (w, .error "D-BUS Error" m) := by
  unfold battery_plus_linux_plugin_handle_method_call
  simp [kBatteryLevelMethod, upower_device_new, hconn, kDbusError]

/-- Witness of C3: the bus is not reachable. -/
theorem C3_getBatteryLevel_connect_failure_witness :
    battery_plus_linux_plugin_handle_method_call World.fresh
        { proxy_new := .error "Could not connect: No such file or directory",
          send_error := none, get_state_null := none } "getBatteryLevel"
      = some (World.fresh,
          .error "D-BUS Error" "Could not connect: No such file or directory") :=
  C3_getBatteryLevel_connect_failure World.fresh
    { proxy_new := .error "Could not connect: No such file or directory",
      send_error := none, get_state_null := none }
    "Could not connect: No such file or directory" rfl

/-- C4: when creating the proxy succeeds on a device whose state is `r.state`, the
listen handler returns no error, stores the new proxy (live, with the change
callback connected once) in `state_device`, and sends exactly one event on the
channel, `upower_state_str r.state`, before it returns. -/
theorem C4_listen_success_initial_event (w : World) (host : Host) (r : Remote)
    (hconn : host.proxy_new = .ok r) :
    ∃ w1 : World,
      battery_plus_linux_plugin_listen_events w host = some (w1, none)
      ∧ w1.state_device = some w.heap.length
      ∧ w1.heap = w.heap ++
          [{ ref_count := 1, handlers := 1, percentage := r.percentage, state := r.state }]
      ∧ w1.events = w.events ++ [upower_state_str r.state] := by
  unfold battery_plus_linux_plugin_listen_events
  simp only [upower_device_new, hconn, g_signal_connect, modify_append_length,
    upower_device_get_state, get?_append_length, Option.map_some', Option.bind_eq_bind,
    Option.some_bind]
  refine ⟨_, rfl, ?_, ?_, ?_⟩
  · rw [(send_battery_state_event_heap _ _ _).2]
    rfl
  · rw [(send_battery_state_event_heap _ _ _).1]
    rfl
  · rw [send_battery_state_event_events, events_log_read_state]
    rfl

/-- Witness of C4: a fresh plugin subscribes while the battery is discharging. -/
theorem C4_listen_success_initial_event_witness :
    ∃ w1 : World,
      battery_plus_linux_plugin_listen_events World.fresh
          { proxy_new := .ok { percentage := .finite 50, state := 2 },
            send_error := none, get_state_null := none } = some (w1, none)
      ∧ w1.state_device = some 0
      ∧ w1.heap = [{ ref_count := 1, handlers := 1, percentage := .finite 50, state := 2 }]
      ∧ w1.events = ["discharging"] :=
  C4_listen_success_initial_event World.fresh
    { proxy_new := .ok { percentage := .finite 50, state := 2 },
      send_error := none, get_state_null := none }
    { percentage := .finite 50, state := 2 } rfl

/-- C5: a property-change notification whose dictionary maps "State" to the uint32
value `s` (the entry found under that key; equivalently, for a dictionary with
distinct keys, an entry `("State", uint32 s)` is in it) makes `properties_changed_cb`
send exactly one event, `upower_state_str s`, and touch nothing else; a dictionary
with no `("State", uint32 _)` entry (only "Percentage" changed, say) sends nothing
and leaves the world as it was. -/
theorem C5_properties_changed_cb_events (w : World) (host : Host)
    (dict : List (String × GVariant)) :
    (∀ s : Nat, dict.lookup "State" = some (.uint32 s) →
      ∃ w1 : World, properties_changed_cb w host dict = some w1
        ∧ w1.events = w.events ++ [upower_state_str s]
        ∧ w1.heap = w.heap ∧ w1.state_device = w.state_device)
    ∧ (∀ s : Nat, (dict.map Prod.fst).Nodup → ("State", GVariant.uint32 s) ∈ dict →
      ∃ w1 : World, properties_changed_cb w host dict = some w1
        ∧ w1.events = w.events ++ [upower_state_str s]
        ∧ w1.heap = w.heap ∧ w1.state_device = w.state_device)
    ∧ ((∀ s : Nat, ("State", GVariant.uint32 s) ∉ dict) →
      properties_changed_cb w host dict = some w) := by
  have key : ∀ s : Nat, dict.lookup "State" = some (.uint32 s) →
      ∃ w1 : World, properties_changed_cb w host dict = some w1
        ∧ w1.events = w.events ++ [upower_state_str s]
        ∧ w1.heap = w.heap ∧ w1.state_device = w.state_device := by
    intro s hs
    have h := g_variant_lookup_value_of_lookup dict "State" _ hs
    refine ⟨send_battery_state_event w host s, ?_, send_battery_state_event_events w host s,
      send_battery_state_event_heap w host s⟩
    unfold properties_changed_cb
    simp only [GVariant.type] at h
    rw [h]
    rfl
  refine ⟨key, fun s hn hm => key s (lookup_of_mem_of_nodup dict "State" _ hn hm), ?_⟩
  intro hnone
  unfold properties_changed_cb
  split
  · rename_i value hv
    obtain ⟨hm, ht⟩ := g_variant_lookup_value_mem dict "State" _ value hv
    cases value <;> simp [GVariant.type] at ht
    exact absurd hm (hnone _)
  · rfl

/-- Witness of C5: after a change of "State" to `Discharging` the event is
"discharging"; after a change of "Percentage" alone there is no event. -/
theorem C5_properties_changed_cb_events_witness :
    (∃ w1 : World,
      properties_changed_cb World.fresh healthy_host
          [("Percentage", .double (.finite 75)), ("State", .uint32 2)] = some w1
        ∧ w1.events = World.fresh.events ++ ["discharging"]
        ∧ w1.heap = World.fresh.heap ∧ w1.state_device = World.fresh.state_device)
    ∧ properties_changed_cb World.fresh healthy_host
          [("Percentage", .double (.finite 75))] = some World.fresh :=
  ⟨(C5_properties_changed_cb_events World.fresh healthy_host
      [("Percentage", .double (.finite 75)), ("State", .uint32 2)]).1 2 (by decide),
   (C5_properties_changed_cb_events World.fresh healthy_host
      [("Percentage", .double (.finite 75))]).2.2 (by simp)⟩

/-- C6: cancel returns no error in every state, adds nothing to the trace (no event
is sent), and leaves `state_device` empty; on a plugin with no stored handle it
changes nothing; a second cancel gives the same result as the first. -/
theorem C6_cancel_idempotent (w : World) :
    (battery_plus_linux_plugin_cancel_events w).2 = none
    ∧ (battery_plus_linux_plugin_cancel_events w).1.trace = w.trace
    ∧ (battery_plus_linux_plugin_cancel_events w).1.state_device = none
    ∧ battery_plus_linux_plugin_cancel_events { w with state_device := none }
        = ({ w with state_device := none }, none)
    ∧ battery_plus_linux_plugin_cancel_events (battery_plus_linux_plugin_cancel_events w).1
        = battery_plus_linux_plugin_cancel_events w := by
  unfold battery_plus_linux_plugin_cancel_events g_clear_object_state_device
  cases h : w.state_device <;> simp [h, g_object_unref]

/-- C7 (what the code does): when creating the proxy fails with message `m`, the
listen handler still calls `upower_device_get_state` on the null `state_device` and
sends an event. If the getter does not return on `nullptr` the handler does not
return either; if the getter returns `v`, the handler returns the "D-BUS Error"
response with message `m`, stores no handle, and has sent one event,
`upower_state_str v`. -/
theorem C7_listen_failure_still_sends (w : World) (host : Host) (m : String)
    (hconn : host.proxy_new = .error m) :
    (host.get_state_null = none → battery_plus_linux_plugin_listen_events w host = none)
    ∧ (∀ v : Nat, host.get_state_null = some v →
      ∃ w1 : World,
        battery_plus_linux_plugin_listen_events w host = some (w1, some (.error "D-BUS Error" m))
        ∧ w1.state_device = none ∧ w1.heap = w.heap
        ∧ w1.events = w.events ++ [upower_state_str v]) := by
  unfold battery_plus_linux_plugin_listen_events
  simp only [upower_device_new, hconn, upower_device_get_state]
  constructor
  · intro h
    simp [h]
  · intro v h
    simp only [h, Option.bind_eq_bind, Option.some_bind, kDbusError]
    refine ⟨_, rfl, ?_, ?_, ?_⟩
    · rw [(send_battery_state_event_heap _ _ _).2]
      rfl
    · rw [(send_battery_state_event_heap _ _ _).1]
      rfl
    · rw [send_battery_state_event_events, events_log_read_state]
      rfl

/-- Witness of C7: a fresh plugin, the bus unreachable: with an unguarded getter the
handler does not return, with a guarded getter it sends "full". -/
theorem C7_listen_failure_still_sends_witness :
    battery_plus_linux_plugin_listen_events World.fresh failing_host_unguarded = none
    ∧ ∃ w1 : World,
        battery_plus_linux_plugin_listen_events World.fresh failing_host
          = some (w1, some (.error "D-BUS Error" "Could not connect: No such file or directory"))
        ∧ w1.state_device = none ∧ w1.heap = World.fresh.heap
        ∧ w1.events = World.fresh.events ++ ["full"] :=
  ⟨(C7_listen_failure_still_sends World.fresh failing_host_unguarded _ rfl).1 rfl,
   (C7_listen_failure_still_sends World.fresh failing_host _ rfl).2 0 rfl⟩

/-- C8 (what the code does): two successful subscribe requests in a row on a fresh
plugin leave two live proxies with a connected change callback: the first one is
still referenced once and still has its handler, the plugin only points to the
second. -/
theorem C8_double_subscribe_keeps_both_handles :
    ∃ w : World,
      run World.fresh [.subscribe healthy_host, .subscribe healthy_host] = some w
      ∧ w.live_callbacks = 2
      ∧ w.state_device = some 1
      ∧ w.heap.get? 0 = some { ref_count := 1, handlers := 1,
                               percentage := .finite (382 / 5), state := 1 } := by
  refine ⟨{ heap := [{ ref_count := 1, handlers := 1, percentage := .finite (382 / 5), state := 1 },
                     { ref_count := 1, handlers := 1, percentage := .finite (382 / 5), state := 1 }],
            state_device := some 1,
            trace := [.read_state (some 0), .event "charging",
                      .read_state (some 1), .event "charging"] }, ?_, ?_, rfl, rfl⟩
  · rfl
  · rfl

/-- C9 (what the code does): `battery_plus_linux_plugin_dispose` changes nothing; on
a plugin with an active subscription the stored proxy is still referenced and its
callback still connected after dispose, whereas cancel releases it. -/
theorem C9_dispose_keeps_subscription :
    (∀ w : World, battery_plus_linux_plugin_dispose w = w)
    ∧ ∃ w : World,
      run World.fresh [.subscribe healthy_host] = some w
      ∧ (battery_plus_linux_plugin_dispose w).state_device = some 0
      ∧ (battery_plus_linux_plugin_dispose w).live_callbacks = 1
      ∧ (battery_plus_linux_plugin_cancel_events w).1.live_callbacks = 0 := by
  refine ⟨fun w => rfl, { heap := [{ ref_count := 1, handlers := 1,
                                     percentage := .finite (382 / 5), state := 1 }],
                          state_device := some 0,
                          trace := [.read_state (some 0), .event "charging"] },
    rfl, rfl, rfl, rfl⟩

/-- C10: for every method name other than "getBatteryLevel" the handler responds
with the not-implemented result and leaves the world as it was, whatever the host
would have answered: no proxy is created and `state_device` is unchanged. -/
theorem C10_other_methods_not_implemented (w : World) (host : Host) (method_name : String)
    (hname : method_name ≠ "getBatteryLevel") :
    battery_plus_linux_plugin_handle_method_call w host method_name
      = some (w, .not_implemented) := by
  unfold battery_plus_linux_plugin_handle_method_call
  rw [if_neg (by simpa [kBatteryLevelMethod] using hname)]

/-- Witness of C10: "getBatteryState" on a plugin with no reachable bus. -/
theorem C10_other_methods_not_implemented_witness :
    battery_plus_linux_plugin_handle_method_call World.fresh failing_host "getBatteryState"
      = some (World.fresh, .not_implemented) :=
  C10_other_methods_not_implemented World.fresh failing_host "getBatteryState" (by decide)

end BatteryPlus
